import Mathlib

/-!
Verification development for the TeamTriforceUK/triforce-robot control core.

The definitions below are a shallow embedding of `src/commands.cpp` and
`src/tasks.cpp`.  Machine floats are modelled as exact rationals (ℚ); the
enumerated `state_t` and command return codes are inductive types.  Each
stateful C task loop is embedded as the pure function computing one loop
iteration's effect from its inputs (shared-state reads become arguments,
shared-state writes become the returned value).
-/

namespace Triforce

/-- `state_t` from states.h: the four arming states
(STATE_DISARMED, STATE_DRIVE_ONLY, STATE_WEAPON_ONLY, STATE_FULLY_ARMED). -/
inductive RobotState where
  | disarmed
  | driveOnly
  | weaponOnly
  | fullyArmed
deriving DecidableEq, Fintype

/-- Return codes from return_codes.h used by the command handlers
(RET_OK, RET_ERROR, RET_ALREADY_ARMED, RET_ALREADY_DISARMED). -/
inductive RetCode where
  | ok
  | error
  | alreadyArmed
  | alreadyDisarmed
deriving DecidableEq, Fintype

/-- `command_fully_disarm` (commands.cpp:116-122): if already disarmed signal
RET_ALREADY_DISARMED, otherwise set the state to STATE_DISARMED. -/
def commandFullyDisarm (s : RobotState) : RetCode × RobotState :=
  if s = RobotState.disarmed then (RetCode.alreadyDisarmed, s)
  else (RetCode.ok, RobotState.disarmed)

/-- `command_partial_disarm` (commands.cpp:124-140): step the state one level
down the fixed chain FULLY_ARMED → WEAPON_ONLY → DRIVE_ONLY → DISARMED. -/
def commandPartialDisarm (s : RobotState) : RetCode × RobotState :=
  match s with
  | RobotState.disarmed => (RetCode.alreadyDisarmed, s)
  | RobotState.driveOnly => (RetCode.ok, RobotState.disarmed)
  | RobotState.weaponOnly => (RetCode.ok, RobotState.driveOnly)
  | RobotState.fullyArmed => (RetCode.ok, RobotState.weaponOnly)

/-- `command_partial_arm` (commands.cpp:141-157): step the state one level up
the fixed chain DISARMED → DRIVE_ONLY → WEAPON_ONLY → FULLY_ARMED. -/
def commandPartialArm (s : RobotState) : RetCode × RobotState :=
  match s with
  | RobotState.disarmed => (RetCode.ok, RobotState.driveOnly)
  | RobotState.driveOnly => (RetCode.ok, RobotState.weaponOnly)
  | RobotState.weaponOnly => (RetCode.ok, RobotState.fullyArmed)
  | RobotState.fullyArmed => (RetCode.alreadyArmed, s)

/-- `command_fully_arm` (commands.cpp:158-164): if already fully armed signal
RET_ALREADY_ARMED, otherwise set the state to STATE_FULLY_ARMED. -/
def commandFullyArm (s : RobotState) : RetCode × RobotState :=
  if s = RobotState.fullyArmed then (RetCode.alreadyArmed, s)
  else (RetCode.ok, RobotState.fullyArmed)

/-- One iteration of the state-mutating switch of `task_arming`
(tasks.cpp:267-301).  The four booleans are the values the task computes at
tasks.cpp:242-261 from the normalized channels and the stall detector
(`drive_switch`, `weapon_switch`, `drive_arm`, `weapon_arm`); they are taken
as inputs here since `is_drive_stalled`/`is_weapon_stalled` and the channel
hardware are outside this file's sources. -/
def taskArmingStep (driveSwitch weaponSwitch driveArm weaponArm : Bool)
    (s : RobotState) : RobotState :=
  match s with
  | RobotState.fullyArmed =>
      if !driveSwitch && !weaponSwitch then RobotState.disarmed
      else if driveSwitch && !weaponSwitch then RobotState.driveOnly
      else if !driveSwitch && weaponSwitch then RobotState.weaponOnly
      else s
  | RobotState.driveOnly =>
      if !driveSwitch then RobotState.disarmed
      else if weaponArm then RobotState.fullyArmed
      else s
  | RobotState.weaponOnly =>
      if !weaponSwitch then RobotState.disarmed
      else if driveArm then RobotState.fullyArmed
      else s
  | RobotState.disarmed =>
      if driveArm && weaponArm then RobotState.fullyArmed
      else if driveArm then RobotState.driveOnly
      else if weaponArm then RobotState.weaponOnly
      else s

/-- One iteration of the state-mutating switch of `task_failsafe`
(tasks.cpp:320-340).  `driveInactive`/`weaponInactive` are the values of
`is_drive_stalled(args)`/`is_weapon_stalled(args)` read at tasks.cpp:317-318,
taken as boolean inputs. -/
def taskFailsafeStep (driveInactive weaponInactive : Bool)
    (s : RobotState) : RobotState :=
  match s with
  | RobotState.fullyArmed =>
      if driveInactive && weaponInactive then RobotState.disarmed
      else if driveInactive && !weaponInactive then RobotState.weaponOnly
      else if !driveInactive && weaponInactive then RobotState.driveOnly
      else s
  | RobotState.driveOnly =>
      if driveInactive then RobotState.disarmed else s
  | RobotState.weaponOnly =>
      if weaponInactive then RobotState.disarmed else s
  | RobotState.disarmed => s

/-- The request kinds of the §4.1 transition table. -/
inductive ArmRequest where
  | disarm
  | promoteDrive
  | promoteWeapon
  | demoteDrive
  | demoteWeapon
deriving DecidableEq, Fintype

/-- Modelled from the spec: the §4.1 transition table
(current state, request kind) → next state; no-op rows return the current
state unchanged.  This is spec text, kept separate from the code embedding so
the two can be compared. -/
def table41 (s : RobotState) (r : ArmRequest) : RobotState :=
  match s, r with
  | RobotState.disarmed, ArmRequest.disarm => RobotState.disarmed
  | RobotState.disarmed, ArmRequest.promoteDrive => RobotState.driveOnly
  | RobotState.disarmed, ArmRequest.promoteWeapon => RobotState.weaponOnly
  | RobotState.disarmed, ArmRequest.demoteDrive => RobotState.disarmed
  | RobotState.disarmed, ArmRequest.demoteWeapon => RobotState.disarmed
  | RobotState.driveOnly, ArmRequest.disarm => RobotState.disarmed
  | RobotState.driveOnly, ArmRequest.promoteDrive => RobotState.fullyArmed
  | RobotState.driveOnly, ArmRequest.promoteWeapon => RobotState.fullyArmed
  | RobotState.driveOnly, ArmRequest.demoteDrive => RobotState.disarmed
  | RobotState.driveOnly, ArmRequest.demoteWeapon => RobotState.driveOnly
  | RobotState.weaponOnly, ArmRequest.disarm => RobotState.disarmed
  | RobotState.weaponOnly, ArmRequest.promoteDrive => RobotState.fullyArmed
  | RobotState.weaponOnly, ArmRequest.promoteWeapon => RobotState.fullyArmed
  | RobotState.weaponOnly, ArmRequest.demoteDrive => RobotState.weaponOnly
  | RobotState.weaponOnly, ArmRequest.demoteWeapon => RobotState.disarmed
  | RobotState.fullyArmed, ArmRequest.disarm => RobotState.disarmed
  | RobotState.fullyArmed, ArmRequest.promoteDrive => RobotState.fullyArmed
  | RobotState.fullyArmed, ArmRequest.promoteWeapon => RobotState.fullyArmed
  | RobotState.fullyArmed, ArmRequest.demoteDrive => RobotState.weaponOnly
  | RobotState.fullyArmed, ArmRequest.demoteWeapon => RobotState.driveOnly

/-- A state-changing edge of the §4.1 table: `s' ≠ s` and some request of the
table moves `s` to `s'`. -/
def tableEdge (s s' : RobotState) : Prop :=
  s' ≠ s ∧ ∃ r : ArmRequest, table41 s r = s'

instance (s s' : RobotState) : Decidable (tableEdge s s') := by
  unfold tableEdge; infer_instance

/-- The edges actually used by the code: the §4.1 table edges together with
the PartialDisarm one-level demotion WeaponOnly → DriveOnly, the PartialArm
one-level promotion DriveOnly → WeaponOnly, and the direct jump
Disarmed → FullyArmed (taken by `command_fully_arm` and by `task_arming` when
both axes present the arm gesture at once). -/
def extendedEdge (s s' : RobotState) : Prop :=
  tableEdge s s' ∨
  (s = RobotState.weaponOnly ∧ s' = RobotState.driveOnly) ∨
  (s = RobotState.driveOnly ∧ s' = RobotState.weaponOnly) ∨
  (s = RobotState.disarmed ∧ s' = RobotState.fullyArmed)

instance (s s' : RobotState) : Decidable (extendedEdge s s') := by
  unfold extendedEdge; infer_instance

/-- The strict "armed-ness" order of the spec's data model: Disarmed below
everything, DriveOnly and WeaponOnly incomparable siblings, FullyArmed on
top. -/
def stateBelow (s s' : RobotState) : Prop :=
  match s, s' with
  | RobotState.disarmed, RobotState.driveOnly => True
  | RobotState.disarmed, RobotState.weaponOnly => True
  | RobotState.disarmed, RobotState.fullyArmed => True
  | RobotState.driveOnly, RobotState.fullyArmed => True
  | RobotState.weaponOnly, RobotState.fullyArmed => True
  | _, _ => False

instance (s s' : RobotState) : Decidable (stateBelow s s') := by
  cases s <;> cases s' <;> (first | exact isTrue trivial | exact isFalse fun h => h)

/-- Modelled from the spec: `clamp` (utils.h, outside src/) "clamps raw value
into [limits.min, limits.max]" (§4.2); also used for the wheel outputs at
tasks.cpp:427-429. -/
def clamp (v lo hi : ℚ) : ℚ :=
  if v < lo then lo else if v > hi then hi else v

/-- The normalization step of `task_read_receiver` (tasks.cpp:203-216):
`pw = clamp(pw, min, max); v = ((pw - min) / (max - min)) * 100.0f`.
The float division is fallible: when `max = min` the clamped `pw` equals
`min` and the source computes `0.0f / 0.0f = NaN`, modelled as `none`. -/
def normalize (pw mn mx : ℚ) : Option ℚ :=
  let pwc := clamp pw mn mx
  if mx - mn = 0 then none
  else some ((pwc - mn) / (mx - mn) * 100)

/-- `channel_limits_t`: observed min/max pulse width for one channel. -/
structure ChannelLimits where
  min : ℚ
  max : ℚ
deriving DecidableEq

/-- The sentinel limits written by `task_calibrate_channels` before sampling
(tasks.cpp:641-646): `min = 10000.0f`, `max = -10000.0f`. -/
def calibrateInit : ChannelLimits :=
  { min := 10000, max := -10000 }

/-- One sampling step of `task_calibrate_channels` for one channel
(tasks.cpp:658-667): replace `min` when the sample is below it, then replace
`max` when the sample is above it. -/
def calibrateUpdate (l : ChannelLimits) (tmp : ℚ) : ChannelLimits :=
  let l1 := if tmp < l.min then { l with min := tmp } else l
  if tmp > l1.max then { l1 with max := tmp } else l1

/-- One calibration pass of `task_calibrate_channels` over the stream of
pulse-width samples observed for one channel: start at the sentinels and fold
the per-sample update (tasks.cpp:640-672). -/
def calibrateRun (samples : List ℚ) : ChannelLimits :=
  samples.foldl calibrateUpdate calibrateInit

/-- Minimum of the non-empty sample stream `x :: xs`. -/
def streamMin (x : ℚ) (xs : List ℚ) : ℚ := xs.foldl min x

/-- Maximum of the non-empty sample stream `x :: xs`. -/
def streamMax (x : ℚ) (xs : List ℚ) : ℚ := xs.foldl max x

/-- Modelled from the spec: `map` (tmath.h, outside src/) remaps a value
linearly from range [inLo, inHi] to [outLo, outHi] (§4.7: "remap each wN from
its expected range [−70,70] to [0,100]"). -/
def remap (v inLo inHi outLo outHi : ℚ) : ℚ :=
  (v - inLo) * (outHi - outLo) / (inHi - inLo) + outLo

/-- The `outputs` record of thread_args shared state: three wheel ESC values
and three weapon-motor ESC values.  It persists across iterations of
`task_set_escs`. -/
structure Outputs where
  wheel_1 : ℚ
  wheel_2 : ℚ
  wheel_3 : ℚ
  weapon_motor_1 : ℚ
  weapon_motor_2 : ℚ
  weapon_motor_3 : ℚ
deriving DecidableEq

/-- The squared magnitude of the joystick deflection in `task_set_escs`:
`x*x + y*y` with `x = aileron − 50`, `y = elevation − 50` (tasks.cpp:383-387).
The source's `magnitude` is its square root; the deadzone test
`magnitude > 5` is equivalent to `magnitudeSq > 25`. -/
def magnitudeSq (aileron elevation : ℚ) : ℚ :=
  (aileron - 50) * (aileron - 50) + (elevation - 50) * (elevation - 50)

/-- One iteration of the output-computing part of `task_set_escs`
(tasks.cpp:377-429), from the previous iteration's `args->outputs` and this
iteration's normalized channel values.

`s3` stands for the source's computed constant `sqrt3o2 = sqrt(3)/2`
(tasks.cpp:393), irrational and therefore kept as a parameter of the
embedding.  The source's polar round trip is eliminated exactly: with
`theta = atan2(x, y)` and `magnitude = sqrt(x²+y²)` one has
`vx = magnitude·sin(theta) = x` and `vy = magnitude·cos(theta) = y`
(tasks.cpp:386-392), and the branch test `magnitude > 5` holds iff
`x² + y² > 25`. -/
def taskSetEscsOutputs (s3 : ℚ) (prior : Outputs)
    (weaponThrottle aileron elevation rudder : ℚ) : Outputs :=
  let x := aileron - 50
  let y := elevation - 50
  let step3 : Outputs :=
    if magnitudeSq aileron elevation > 25 then
      let vx := x
      let vy := y
      let w0 := -vx
      let w1 := (1/2) * vx - s3 * vy
      let w2 := (1/2) * vx + s3 * vy
      let w0Speed := remap w0 (-70) 70 0 100
      let w1Speed := remap w1 (-70) 70 0 100
      let w2Speed := remap w2 (-70) 70 0 100
      { prior with
        wheel_1 := prior.wheel_1 + (w0Speed - 50)
        wheel_2 := prior.wheel_2 + (w1Speed - 50)
        wheel_3 := prior.wheel_3 + (w2Speed - 50) }
    else
      { prior with wheel_1 := 50, wheel_2 := 50, wheel_3 := 50 }
  { wheel_1 := clamp (step3.wheel_1 + (rudder - 50)) 0 100
    wheel_2 := clamp (step3.wheel_2 + (rudder - 50)) 0 100
    wheel_3 := clamp (step3.wheel_3 + (rudder - 50)) 0 100
    weapon_motor_1 := weaponThrottle
    weapon_motor_2 := weaponThrottle
    weapon_motor_3 := weaponThrottle }

/-- The calls `task_set_escs` issues to the ESC driver
(`setThrottle`/`failsafe` per drive/weapon actuator index). -/
inductive EscAction where
  | setThrottleDrive (i : Fin 3) (v : ℚ)
  | setThrottleWeapon (i : Fin 3) (v : ℚ)
  | failsafeDrive (i : Fin 3)
  | failsafeWeapon (i : Fin 3)
deriving DecidableEq

/-- The actuator-dispatch switch of `task_set_escs` (tasks.cpp:431-457): the
sequence of ESC driver calls issued in one iteration, by arming state. -/
def escDispatch (s : RobotState) (o : Outputs) : List EscAction :=
  match s with
  | RobotState.fullyArmed =>
      [EscAction.setThrottleWeapon 0 o.weapon_motor_1,
       EscAction.setThrottleWeapon 1 o.weapon_motor_2,
       EscAction.setThrottleWeapon 2 o.weapon_motor_3,
       EscAction.setThrottleDrive 0 o.wheel_1,
       EscAction.setThrottleDrive 1 o.wheel_2,
       EscAction.setThrottleDrive 2 o.wheel_3]
  | RobotState.driveOnly =>
      [EscAction.setThrottleDrive 0 o.wheel_1,
       EscAction.setThrottleDrive 1 o.wheel_2,
       EscAction.setThrottleDrive 2 o.wheel_3]
  | RobotState.weaponOnly =>
      [EscAction.setThrottleWeapon 0 o.weapon_motor_1,
       EscAction.setThrottleWeapon 1 o.weapon_motor_2,
       EscAction.setThrottleWeapon 2 o.weapon_motor_3]
  | RobotState.disarmed =>
      [EscAction.failsafeDrive 0, EscAction.failsafeDrive 1,
       EscAction.failsafeDrive 2, EscAction.failsafeWeapon 0,
       EscAction.failsafeWeapon 1, EscAction.failsafeWeapon 2]

/-! Helper lemmas about the calibration fold. -/

lemma calibrateUpdate_min (l : ChannelLimits) (t : ℚ) :
    (calibrateUpdate l t).min = min l.min t := by
  simp only [calibrateUpdate]
  split_ifs with h1 h2 h3
  · exact (min_eq_right h1.le).symm
  · exact (min_eq_right h1.le).symm
  · exact (min_eq_left (not_lt.mp h1)).symm
  · exact (min_eq_left (not_lt.mp h1)).symm

lemma calibrateUpdate_max (l : ChannelLimits) (t : ℚ) :
    (calibrateUpdate l t).max = max l.max t := by
  simp only [calibrateUpdate]
  split_ifs with h1 h2 h3
  · exact (max_eq_right h2.le).symm
  · exact (max_eq_left (not_lt.mp h2)).symm
  · exact (max_eq_right h3.le).symm
  · exact (max_eq_left (not_lt.mp h3)).symm

lemma foldl_calibrateUpdate_min :
    ∀ (xs : List ℚ) (l : ChannelLimits),
      (xs.foldl calibrateUpdate l).min = xs.foldl min l.min
  | [], _ => rfl
  | x :: xs, l => by
      simp only [List.foldl_cons, foldl_calibrateUpdate_min xs, calibrateUpdate_min]

lemma foldl_calibrateUpdate_max :
    ∀ (xs : List ℚ) (l : ChannelLimits),
      (xs.foldl calibrateUpdate l).max = xs.foldl max l.max
  | [], _ => rfl
  | x :: xs, l => by
      simp only [List.foldl_cons, foldl_calibrateUpdate_max xs, calibrateUpdate_max]

lemma foldl_min_min :
    ∀ (xs : List ℚ) (a b : ℚ), xs.foldl min (min a b) = min a (xs.foldl min b)
  | [], _, _ => rfl
  | c :: cs, a, b => by
      simp only [List.foldl_cons, min_assoc, foldl_min_min cs]

lemma foldl_max_max :
    ∀ (xs : List ℚ) (a b : ℚ), xs.foldl max (max a b) = max a (xs.foldl max b)
  | [], _, _ => rfl
  | c :: cs, a, b => by
      simp only [List.foldl_cons, max_assoc, foldl_max_max cs]

lemma foldl_min_le (xs : List ℚ) (a : ℚ) : xs.foldl min a ≤ a := by
  induction xs generalizing a with
  | nil => exact le_refl a
  | cons x xs ih => exact le_trans (ih (min a x)) (min_le_left a x)

lemma le_foldl_max (xs : List ℚ) (a : ℚ) : a ≤ xs.foldl max a := by
  induction xs generalizing a with
  | nil => exact le_refl a
  | cons x xs ih => exact le_trans (le_max_left a x) (ih (max a x))

/-! The claim theorems. -/

/-- C1 (counterexample): the claim "every change to ArmingState is a
transition of the §4.1 table" fails on the code at the concrete input
WeaponOnly: `command_partial_disarm` moves WeaponOnly to DriveOnly, and
WeaponOnly → DriveOnly is not an edge of the §4.1 table. -/
theorem c1_counterexample :
    (commandPartialDisarm RobotState.weaponOnly).2 = RobotState.driveOnly ∧
    ¬ tableEdge RobotState.weaponOnly RobotState.driveOnly := by
  decide

/-- C1 (amended): every change any arming-state writer (the four command
handlers, one `task_arming` iteration, one `task_failsafe` iteration) makes
to ArmingState is either an edge of the §4.1 table or one of three edges
absent from it: the PartialDisarm step WeaponOnly → DriveOnly, the PartialArm
step DriveOnly → WeaponOnly, and the direct jump Disarmed → FullyArmed taken
by FullyArm and by the arm-intent evaluator when both axes present the arm
gesture at once. -/
theorem c1_transitions_extended :
    ∀ (dsw wsw da wa di wi : Bool) (s : RobotState),
    ((commandFullyDisarm s).2 = s ∨ extendedEdge s (commandFullyDisarm s).2) ∧
    ((commandPartialDisarm s).2 = s ∨ extendedEdge s (commandPartialDisarm s).2) ∧
    ((commandPartialArm s).2 = s ∨ extendedEdge s (commandPartialArm s).2) ∧
    ((commandFullyArm s).2 = s ∨ extendedEdge s (commandFullyArm s).2) ∧
    (taskArmingStep dsw wsw da wa s = s ∨
      extendedEdge s (taskArmingStep dsw wsw da wa s)) ∧
    (taskFailsafeStep di wi s = s ∨
      extendedEdge s (taskFailsafeStep di wi s)) := by
  decide

/-- C2: for every arming state and every combination of the
drive-stalled/weapon-stalled inputs, one `task_failsafe` iteration either
leaves the state unchanged or moves it strictly downward in the armed-ness
order; in particular it never promotes. -/
theorem c2_failsafe_never_promotes :
    ∀ (di wi : Bool) (s : RobotState),
    taskFailsafeStep di wi s = s ∨ stateBelow (taskFailsafeStep di wi s) s := by
  decide

/-- C3 (code evaluated at the failing input): with degenerate limits
min = max = 1500 the normalization of `task_read_receiver` computes
`0.0f / 0.0f`, i.e. NaN (modelled `none`) for every raw pulse width — not
the defined neutral value 50 the claim requires. -/
theorem c3_normalize_degenerate_nan :
    normalize 1500 1500 1500 = none ∧ normalize 1500 1500 1500 ≠ some 50 := by
  constructor
  · norm_num [normalize, clamp]
  · simp [normalize, clamp]

/-- C4: in every `task_set_escs` iteration the ESC calls are gated by the
arming state exactly as claimed: Disarmed issues `failsafe()` on all six
actuators and no `setThrottle`; DriveOnly issues `setThrottle` only on the
three drive actuators; WeaponOnly only on the three weapon actuators;
FullyArmed on all six. -/
theorem c4_dispatch_gated_by_state :
    ∀ o : Outputs,
    escDispatch RobotState.disarmed o =
      [EscAction.failsafeDrive 0, EscAction.failsafeDrive 1,
       EscAction.failsafeDrive 2, EscAction.failsafeWeapon 0,
       EscAction.failsafeWeapon 1, EscAction.failsafeWeapon 2] ∧
    escDispatch RobotState.driveOnly o =
      [EscAction.setThrottleDrive 0 o.wheel_1,
       EscAction.setThrottleDrive 1 o.wheel_2,
       EscAction.setThrottleDrive 2 o.wheel_3] ∧
    escDispatch RobotState.weaponOnly o =
      [EscAction.setThrottleWeapon 0 o.weapon_motor_1,
       EscAction.setThrottleWeapon 1 o.weapon_motor_2,
       EscAction.setThrottleWeapon 2 o.weapon_motor_3] ∧
    escDispatch RobotState.fullyArmed o =
      [EscAction.setThrottleWeapon 0 o.weapon_motor_1,
       EscAction.setThrottleWeapon 1 o.weapon_motor_2,
       EscAction.setThrottleWeapon 2 o.weapon_motor_3,
       EscAction.setThrottleDrive 0 o.wheel_1,
       EscAction.setThrottleDrive 1 o.wheel_2,
       EscAction.setThrottleDrive 2 o.wheel_3] :=
  fun _ => ⟨rfl, rfl, rfl, rfl⟩

/-- C5 (counterexample): with channels aileron = 100, elevation = 50,
rudder = 50 (magnitude 50, outside the deadzone), two `task_set_escs`
iterations with identical channel values but different prior wheel outputs
(wheel_1 = 50 vs wheel_1 = 0) produce different wheel_1 results (100/7 vs 0):
the accumulation `wheel_1 += w0_speed - 50` reads the previous cycle's
output, so the claim that outputs depend only on the cycle's channel values
is false.  The `sqrt3o2` parameter is instantiated at 7/8; wheel_1 does not
depend on it. -/
theorem c5_counterexample :
    (taskSetEscsOutputs (7/8) ⟨50, 50, 50, 0, 0, 0⟩ 0 100 50 50).wheel_1 = 100/7 ∧
    (taskSetEscsOutputs (7/8) ⟨0, 0, 0, 0, 0, 0⟩ 0 100 50 50).wheel_1 = 0 ∧
    (100/7 : ℚ) ≠ 0 := by
  refine ⟨?_, ?_, by norm_num⟩ <;>
    norm_num [taskSetEscsOutputs, magnitudeSq, remap, clamp]

/-- C5 (amended): the wheel outputs of one `task_set_escs` iteration depend
only on that iteration's channel values whenever the joystick deflection is
inside the deadzone (magnitude ≤ 5); outside the deadzone they additionally
accumulate onto the previous iteration's wheel outputs. -/
theorem c5_deadzone_independent_of_prior :
    ∀ (s3 wt aileron elevation rudder : ℚ) (p1 p2 : Outputs),
    magnitudeSq aileron elevation ≤ 25 →
    taskSetEscsOutputs s3 p1 wt aileron elevation rudder =
    taskSetEscsOutputs s3 p2 wt aileron elevation rudder := by
  intro s3 wt a e r p1 p2 hdz
  simp only [taskSetEscsOutputs, if_neg (not_lt.mpr hdz)]

/-- C5 (witness): the amended theorem applied at centered channels and two
different prior outputs. -/
theorem c5_witness :
    taskSetEscsOutputs (7/8) ⟨1, 2, 3, 4, 5, 6⟩ 0 50 50 50 =
    taskSetEscsOutputs (7/8) ⟨97, 98, 99, 96, 95, 94⟩ 0 50 50 50 :=
  c5_deadzone_independent_of_prior (7/8) 0 50 50 50
    ⟨1, 2, 3, 4, 5, 6⟩ ⟨97, 98, 99, 96, 95, 94⟩ (by norm_num [magnitudeSq])

/-- C6: applying `command_partial_arm` four times from Disarmed yields
DriveOnly, then WeaponOnly, then FullyArmed, and the fourth application
returns RET_ALREADY_ARMED leaving the state FullyArmed. -/
theorem c6_partial_arm_sequence :
    commandPartialArm RobotState.disarmed = (RetCode.ok, RobotState.driveOnly) ∧
    commandPartialArm RobotState.driveOnly = (RetCode.ok, RobotState.weaponOnly) ∧
    commandPartialArm RobotState.weaponOnly = (RetCode.ok, RobotState.fullyArmed) ∧
    commandPartialArm RobotState.fullyArmed =
      (RetCode.alreadyArmed, RobotState.fullyArmed) := by
  decide

/-- C7: one `task_failsafe` iteration from FullyArmed with
drive stalled and weapon not stalled sets the state to WeaponOnly, and in
particular to neither Disarmed nor DriveOnly. -/
theorem c7_failsafe_drive_stall :
    taskFailsafeStep true false RobotState.fullyArmed = RobotState.weaponOnly ∧
    taskFailsafeStep true false RobotState.fullyArmed ≠ RobotState.disarmed ∧
    taskFailsafeStep true false RobotState.fullyArmed ≠ RobotState.driveOnly := by
  decide

/-- C8 (counterexample): a calibration pass over the single-sample stream
[20000] leaves min at the 10000 sentinel (20000 is not below it), so the
resulting limits are {min 10000, max 20000}, not
{min = minimum = 20000, max = maximum = 20000} as the claim states for every
sample stream. -/
theorem c8_counterexample :
    calibrateRun [20000] = { min := 10000, max := 20000 } ∧
    ({ min := 10000, max := 20000 } : ChannelLimits) ≠
      { min := 20000, max := 20000 } := by
  decide

/-- C8 (amended): for every non-empty sample stream whose samples lie
strictly between the sentinels −10000 and 10000, one calibration pass yields
exactly {min = minimum of the samples, max = maximum of the samples}, and
max ≥ min holds. -/
theorem c8_calibration_minmax :
    ∀ (x : ℚ) (xs : List ℚ),
    (∀ y ∈ x :: xs, -10000 < y ∧ y < 10000) →
    calibrateRun (x :: xs) = { min := streamMin x xs, max := streamMax x xs } ∧
    streamMin x xs ≤ streamMax x xs := by
  intro x xs hb
  have hx := hb x (List.mem_cons_self x xs)
  have hminle : streamMin x xs ≤ x := foldl_min_le xs x
  have hmaxge : x ≤ streamMax x xs := le_foldl_max xs x
  constructor
  · have hmin : (calibrateRun (x :: xs)).min = streamMin x xs := by
      unfold calibrateRun calibrateInit
      rw [foldl_calibrateUpdate_min]
      simp only [List.foldl_cons]
      rw [show ((10000 : ℚ) ⊓ x) = min 10000 x from rfl, foldl_min_min]
      exact min_eq_right (le_trans hminle hx.2.le)
    have hmax : (calibrateRun (x :: xs)).max = streamMax x xs := by
      unfold calibrateRun calibrateInit
      rw [foldl_calibrateUpdate_max]
      simp only [List.foldl_cons]
      rw [show ((-10000 : ℚ) ⊔ x) = max (-10000) x from rfl, foldl_max_max]
      exact max_eq_right (le_trans hx.1.le hmaxge)
    cases h : calibrateRun (x :: xs)
    simp only [h] at hmin hmax
    simp [hmin, hmax]
  · exact le_trans hminle hmaxge

/-- C8 (witness): the amended theorem applied to the spec's example stream
[1000, 1500, 1200, 1800], yielding limits {min 1000, max 1800}. -/
theorem c8_witness :
    calibrateRun [1000, 1500, 1200, 1800] = { min := 1000, max := 1800 } := by
  have h := (c8_calibration_minmax 1000 [1500, 1200, 1800] (by decide)).1
  rw [h]
  decide

/-- C9: one `task_set_escs` iteration with aileron = elevation = rudder = 50
has squared magnitude 0 (so the deadzone branch is taken) and produces wheel
outputs exactly 50, 50, 50, regardless of the prior outputs, the weapon
throttle and the value of the sqrt(3)/2 constant. -/
theorem c9_mixer_centered_neutral :
    ∀ (s3 wt : ℚ) (p : Outputs),
    magnitudeSq 50 50 = 0 ∧
    (taskSetEscsOutputs s3 p wt 50 50 50).wheel_1 = 50 ∧
    (taskSetEscsOutputs s3 p wt 50 50 50).wheel_2 = 50 ∧
    (taskSetEscsOutputs s3 p wt 50 50 50).wheel_3 = 50 := by
  intro s3 wt p
  refine ⟨by norm_num [magnitudeSq], ?_, ?_, ?_⟩ <;>
    norm_num [taskSetEscsOutputs, magnitudeSq, clamp]

/-- C10: on every state where PartialArm succeeds (all states except
FullyArmed), applying `command_partial_arm` and then
`command_partial_disarm` returns the state to exactly where it started. -/
theorem c10_partial_disarm_left_inverse :
    ∀ s : RobotState, s ≠ RobotState.fullyArmed →
    (commandPartialDisarm (commandPartialArm s).2).2 = s := by
  decide

/-- C10 (witness): the left-inverse theorem applied at Disarmed. -/
theorem c10_witness :
    (commandPartialDisarm (commandPartialArm RobotState.disarmed).2).2 =
      RobotState.disarmed :=
  c10_partial_disarm_left_inverse RobotState.disarmed (by decide)

end Triforce
